import Mathlib

/-!
Shallow embedding of the volunteer-website backend core.

Sources embedded here:
* `src/dependencies/database/scoring.py` — the three scoring components
  (`skills_match_score`, `schedule_overlap_score`, `distance_based_location_score`).
* `src/dependencies/database/relations.py` — enrollment
  (`signup_volunteer_event`, `remove_volunteer_event`) and the two matching
  entry points (`match_volunteers_to_event`, `match_events_to_volunteer`).
* `src/dependencies/database/crud.py` — event update
  (`update_event_helper`, `update_org_event`, `update_location`).
* `src/models/dbmodels.py` / `src/models/pydanticmodels.py` — the data model.

Modelling conventions: machine integers are `Int`/`Nat` (Python ints are
unbounded); SQL numeric arithmetic is `ℚ`; a date is its day count since
1970-01-01 (a Thursday), so the SQL `extract(isodow, ·)` is computable; a
time of day is its minute count since midnight; the PostGIS distance
provider is an external collaborator and enters the model as an explicit
function argument returning meters.  A raised typed error is an
`Except .error`; the committed database state after a call that raised is
the state before the call (the session never committed its buffered
mutations).
-/

namespace VolunteerBackend

/-- Days since 1970-01-01 (which was a Thursday); the type of `Event.day`. -/
abbrev Day := Nat

/-- Minutes since midnight; the type of all time-of-day columns. -/
abbrev TimeOfDay := Nat

/-- ISO weekday (Monday = 1 .. Sunday = 7) of a day number, mirroring the SQL
`extract(isodow, day)` used by the schedule scoring.  Day 0 = 1970-01-01 was a
Thursday, isodow 4. -/
def isodow (d : Day) : Nat := (d + 3) % 7 + 1

/-- One row of the `volunteer_weekly_schedule` table (dbmodels.VolunteerAvailableTime),
restricted to the columns the scoring reads: day_of_week (1..7), start_time, end_time. -/
structure AvailSlot where
  day_of_week : Nat
  start_time : TimeOfDay
  end_time : TimeOfDay
deriving DecidableEq, Repr

/-- `skills_match_score` from scoring.py.  The correlated subquery counts the
rows of the entity's skills table whose `skill` is in `target_skills`
(`entity_skill_rows` is the list of skill strings on the rows belonging to the
correlated entity), and the `case` expression caps the count at `max_weight`. -/
def skills_match_score (entity_skill_rows : List String)
    (target_skills : List String) (max_weight : Nat) : Nat :=
  let skills_count := (entity_skill_rows.filter (fun s => target_skills.contains s)).length
  if skills_count > max_weight then max_weight else skills_count

/-- `schedule_overlap_score` from scoring.py.  The correlated `exists` subquery
tests whether any availability row of the volunteer lies on the event's ISO
weekday and satisfies `start_time <= event_end_time AND end_time >= event_start_time`;
the `case` expression yields `max_weight` when the subquery is non-empty, else 0. -/
def schedule_overlap_score (volunteer_slots : List AvailSlot) (event_day : Day)
    (event_start_time event_end_time : TimeOfDay) (max_weight : Nat) : Nat :=
  let overlaps := volunteer_slots.any (fun s =>
    s.day_of_week == isodow event_day &&
    decide (s.start_time ≤ event_end_time) &&
    decide (s.end_time ≥ event_start_time))
  if overlaps then max_weight else 0

/-- `distance_based_location_score` from scoring.py: linear decay
`percentage = (max_distance - distance) / max_distance`, clamped by the `case`
expression to `[0, max_weight]`. -/
def distance_based_location_score (distance : ℚ) (max_distance : ℚ)
    (max_weight : ℚ) : ℚ :=
  let percentage := (max_distance - distance) / max_distance
  if percentage ≤ 0 then 0
  else if percentage ≥ 1 then max_weight
  else percentage * max_weight

/-- The closed set of typed errors raised by the embedded operations
(src/util/error.py): NotFoundError, ConflictError, ValidationError,
AuthorizationError, ExternalServiceError.  Only the constructor kind and the
client-safe message are modelled. -/
inductive ApiError
  | notFound (resource : String)
  | conflict (message : String)
  | validation (message : String)
  | authorization (message : String)
  | externalService (message : String)
deriving DecidableEq, Repr

instance {ε α : Type} [DecidableEq ε] [DecidableEq α] :
    DecidableEq (Except ε α) := fun a b =>
  match a, b with
  | .ok x, .ok y =>
    if h : x = y then .isTrue (by rw [h]) else .isFalse (by intro hc; injection hc; exact h (by assumption))
  | .error x, .error y =>
    if h : x = y then .isTrue (by rw [h]) else .isFalse (by intro hc; injection hc; exact h (by assumption))
  | .ok _, .error _ => .isFalse (by intro hc; exact Except.noConfusion hc)
  | .error _, .ok _ => .isFalse (by intro hc; exact Except.noConfusion hc)

/-- A `location` row (dbmodels.Location) restricted to the columns the core
reads: the address fields and the geographic point.  `coordinates` is the
PostGIS point as (longitude, latitude), the argument order of
`ST_MakePoint(longitude, latitude)` in crud.py. -/
structure Location where
  address : String
  city : String
  state : String
  zip_code : String
  country : String
  coordinates : ℚ × ℚ
deriving DecidableEq, Repr

/-- A `volunteer` row with its owned association rows: skill strings
(`volunteer_skill`, distinct by composite PK), weekly availability rows
(`volunteer_weekly_schedule`), and the optional joined location. -/
structure Volunteer where
  id : Nat
  skills : List String
  times_available : List AvailSlot
  location : Option Location
deriving DecidableEq, Repr

/-- pydanticmodels.EventUrgency. -/
inductive EventUrgency
  | low
  | medium
  | high
  | critical
deriving DecidableEq, Repr

/-- An `event` row with its owned association rows (needed skill strings from
`event_skill`) and its required joined location. -/
structure Event where
  id : Nat
  org_id : Nat
  name : String
  description : String
  image_url : Option String
  day : Day
  start_time : TimeOfDay
  end_time : TimeOfDay
  urgency : EventUrgency
  assigned : Int
  capacity : Int
  location : Location
  needed_skills : List String
deriving DecidableEq, Repr

/-- An `organization_admin` row restricted to the columns the embedded
operations read. -/
structure OrgAdmin where
  id : Nat
  org_id : Nat
deriving DecidableEq, Repr

/-- The committed database state read and written by the embedded operations.
`event_volunteers` holds the `event_volunteer` join rows as their composite
primary key `(event_id, volunteer_id)`. -/
structure Db where
  volunteers : List Volunteer
  events : List Event
  admins : List OrgAdmin
  event_volunteers : List (Nat × Nat)
deriving DecidableEq, Repr

/-- `db.get(dbmodels.Volunteer, id)`. -/
def findVolunteer (db : Db) (id : Nat) : Option Volunteer :=
  db.volunteers.find? (fun v => v.id == id)

/-- `db.get(dbmodels.Event, id)`. -/
def findEvent (db : Db) (id : Nat) : Option Event :=
  db.events.find? (fun e => e.id == id)

/-- `db.get(dbmodels.OrgAdmin, id)`. -/
def findAdmin (db : Db) (id : Nat) : Option OrgAdmin :=
  db.admins.find? (fun a => a.id == id)

/-- Primary-key well-formedness of the event table: `event.id` is unique. -/
def db_wf (db : Db) : Prop := (db.events.map Event.id).Nodup

instance (db : Db) : Decidable (db_wf db) := by
  unfold db_wf; infer_instance

/-- The session-buffered mutations of a successful `signup_volunteer_event`
call: the INSERT of the join row and the UPDATE of the event's `assigned`
column.  The ORM statement `found_event.assigned += 1` writes the literal
value `new_assigned` computed from the value read in the check phase. -/
structure SignupWrites where
  event_id : Nat
  volunteer_id : Nat
  new_assigned : Int
deriving DecidableEq, Repr

/-- The read/check phase of `signup_volunteer_event` (relations.py): fetch the
volunteer (else NotFound), fetch the event (else NotFound), reject an existing
join row (Conflict), reject a full event (ValidationError), otherwise buffer
the insert and the incremented counter.  All reads see the committed state
`db` that the session opened on. -/
def signup_volunteer_event_checks (db : Db) (volunteer_id event_id : Nat) :
    Except ApiError SignupWrites :=
  match findVolunteer db volunteer_id with
  | none => .error (.notFound "volunteer")
  | some _found_volunteer =>
    match findEvent db event_id with
    | none => .error (.notFound "event")
    | some found_event =>
      if (event_id, volunteer_id) ∈ db.event_volunteers then
        .error (.conflict "Volunteer already signed up to event")
      else if found_event.assigned ≥ found_event.capacity then
        .error (.validation "Invalid join request")
      else
        .ok ⟨event_id, volunteer_id, found_event.assigned + 1⟩

/-- Overwrite the `assigned` column of the event row(s) with id `event_id`. -/
def setAssigned (events : List Event) (event_id : Nat) (val : Int) : List Event :=
  events.map (fun e => if e.id = event_id then { e with assigned := val } else e)

/-- Commit the buffered signup mutations onto a committed state. -/
def applySignupWrites (db : Db) (w : SignupWrites) : Db :=
  { db with
    event_volunteers := (w.event_id, w.volunteer_id) :: db.event_volunteers,
    events := setAssigned db.events w.event_id w.new_assigned }

/-- `signup_volunteer_event` run in isolation: the check phase against the
committed state followed, on success, by the commit of its buffered writes. -/
def signup_volunteer_event (db : Db) (volunteer_id event_id : Nat) :
    Except ApiError Db :=
  (signup_volunteer_event_checks db volunteer_id event_id).map (applySignupWrites db)

/-- `remove_volunteer_event` (relations.py): fetch the join row (else
NotFound), load its event through the foreign key, refuse to decrement an
`assigned` counter that is already `<= 0` (ValidationError), otherwise
decrement the counter and delete the row, committing both.  The `none` branch
of the event lookup is unreachable in the source (foreign-key integrity). -/
def remove_volunteer_event (db : Db) (volunteer_id event_id : Nat) :
    Except ApiError Db :=
  if (event_id, volunteer_id) ∈ db.event_volunteers then
    match findEvent db event_id with
    | none => .error (.notFound "event")
    | some event =>
      if event.assigned ≤ 0 then
        .error (.validation "Event already has 0 volunteers!")
      else
        .ok { db with
          events := setAssigned db.events event_id (event.assigned - 1),
          event_volunteers := db.event_volunteers.erase (event_id, volunteer_id) }
  else
    .error (.notFound "event_volunteer")

/-- The committed state visible after a call: the new state when the call
committed, the old state when it raised (every raise in the embedded sources
happens before `db.commit()`, so a failed call leaves the store untouched). -/
def db_after (db : Db) (r : Except ApiError Db) : Db :=
  match r with
  | .ok db2 => db2
  | .error _ => db

/-- Number of `event_volunteer` rows of one event. -/
def enrolled_count (db : Db) (event_id : Nat) : Nat :=
  (db.event_volunteers.filter (fun p => p.1 == event_id)).length

/-- The capacity invariant of one event row (spec §3; also the table CHECK
constraints `ck_event_assigned_nonneg` and `ck_event_assigned_le_capacity`). -/
def event_inv (e : Event) : Prop := 0 ≤ e.assigned ∧ e.assigned ≤ e.capacity

instance (e : Event) : Decidable (event_inv e) := by
  unfold event_inv; infer_instance

/-- The capacity invariant over the whole store. -/
def db_inv (db : Db) : Prop := ∀ e ∈ db.events, event_inv e

instance (db : Db) : Decidable (db_inv db) := by
  unfold db_inv; infer_instance

/-- The pydantic `Location` payload (address fields only). -/
structure LocationPayload where
  address : String
  city : String
  state : String
  zip_code : String
  country : String
deriving DecidableEq, Repr

/-- Errors escaping `update_event_helper`: Python `ValueError` (capacity
violations, caught by `update_org_event`) and the `ExternalServiceError`
raised by `update_location` when no latlong was supplied (not caught). -/
inductive UpdateErr
  | valueError (message : String)
  | externalService (message : String)
deriving DecidableEq, Repr

/-- `update_location` (crud.py): requires a geocoded latlong, then overwrites
the address fields and rebuilds the PostGIS point as
`ST_MakePoint(longitude, latitude)`. -/
def update_location (old_location : Location) (new_location : LocationPayload)
    (latlong : Option (ℚ × ℚ)) : Except UpdateErr Location :=
  match latlong with
  | none => .error (.externalService "update_location was called without latlong")
  | some ll =>
    .ok { old_location with
      address := new_location.address,
      city := new_location.city,
      state := new_location.state,
      country := new_location.country,
      zip_code := new_location.zip_code,
      coordinates := (ll.2, ll.1) }

/-- pydanticmodels.EventUpdate: every field optional, including the day and
time window fields. -/
structure EventUpdate where
  name : Option String := none
  description : Option String := none
  location : Option LocationPayload := none
  needed_skills : Option (List String) := none
  urgency : Option EventUrgency := none
  capacity : Option Int := none
  day : Option Day := none
  start_time : Option TimeOfDay := none
  end_time : Option TimeOfDay := none
deriving DecidableEq, Repr

/-- The skill normalisation of `update_event_helper`: keep non-empty,
non-whitespace entries, strip them, deduplicate (Python set) and sort
ascending (`sorted`). -/
def normalize_skills (skills : List String) : List String :=
  ((((skills.filter (fun s => !(s == "") && !(s.trim == ""))).map
    (fun s => s.trim)).dedup).mergeSort (fun a b => decide (a ≤ b)))

/-- `if event_updates.name is not None: old_event.name = ...` -/
def apply_name (e : Event) (u : EventUpdate) : Event :=
  match u.name with
  | some n => { e with name := n }
  | none => e

/-- `if event_updates.description is not None: ...` -/
def apply_description (e : Event) (u : EventUpdate) : Event :=
  match u.description with
  | some dsc => { e with description := dsc }
  | none => e

/-- `if event_updates.location is not None: update_location(...)` -/
def apply_location_update (e : Event) (u : EventUpdate)
    (latlong : Option (ℚ × ℚ)) : Except UpdateErr Event :=
  match u.location with
  | some loc => (update_location e.location loc latlong).map
      (fun l => { e with location := l })
  | none => .ok e

/-- `if event_updates.needed_skills is not None: ...` (strip, dedupe, sort) -/
def apply_needed_skills (e : Event) (u : EventUpdate) : Event :=
  match u.needed_skills with
  | some skills => { e with needed_skills := normalize_skills skills }
  | none => e

/-- `if event_updates.urgency is not None: ...` -/
def apply_urgency (e : Event) (u : EventUpdate) : Event :=
  match u.urgency with
  | some urg => { e with urgency := urg }
  | none => e

/-- `if image_url is not None: old_event.image_url = image_url` -/
def apply_image (e : Event) (image_url : Option String) : Event :=
  match image_url with
  | some i => { e with image_url := some i }
  | none => e

/-- `if event_updates.capacity is not None:` reject a capacity below the
currently assigned count, or a negative one, as ValueError; else apply. -/
def apply_capacity (e : Event) (u : EventUpdate) : Except UpdateErr Event :=
  match u.capacity with
  | none => .ok e
  | some c =>
    if c < e.assigned then
      .error (.valueError "Capacity cannot be less than currently assigned volunteers")
    else if c < 0 then
      .error (.valueError "Capacity cannot be negative!")
    else .ok { e with capacity := c }

/-- `update_event_helper` (crud.py): apply, in source order, the optional
name, description, location, needed_skills, urgency and image updates, then
the checked capacity update.  The `day`, `start_time` and `end_time` fields of
the update are never applied. -/
def update_event_helper (old_event : Event) (event_updates : EventUpdate)
    (image_url : Option String) (latlong : Option (ℚ × ℚ)) :
    Except UpdateErr Event :=
  match apply_location_update
      (apply_description (apply_name old_event event_updates) event_updates)
      event_updates latlong with
  | .error err => .error err
  | .ok e3 =>
    apply_capacity
      (apply_image (apply_urgency (apply_needed_skills e3 event_updates)
        event_updates) image_url)
      event_updates

/-- The committed event row after an `update_event_helper` call (old row when
the call raised: the session was never committed). -/
def event_after (e : Event) (r : Except UpdateErr Event) : Event :=
  match r with
  | .ok e2 => e2
  | .error _ => e

/-- `update_org_event` (crud.py): fetch event and admin (else NotFound),
require the admin to belong to the event's organization (else
AuthorizationError), run the helper — its ValueError becomes a
ValidationError, its ExternalServiceError propagates — then commit the
updated row. -/
def update_org_event (db : Db) (event_id : Nat) (event_updates : EventUpdate)
    (admin_id : Nat) (image_url : Option String) (latlong : Option (ℚ × ℚ)) :
    Except ApiError (Db × Event) :=
  match findEvent db event_id with
  | none => .error (.notFound "event")
  | some found_event =>
    match findAdmin db admin_id with
    | none => .error (.notFound "Admin")
    | some found_admin =>
      if found_admin.org_id ≠ found_event.org_id then
        .error (.authorization "Admin is not apart of organization!")
      else
        match update_event_helper found_event event_updates image_url latlong with
        | .error (.valueError _) => .error (.validation "Invalid event data")
        | .error (.externalService m) => .error (.externalService m)
        | .ok new_event =>
          .ok ({ db with events :=
            db.events.map (fun e => if e.id = event_id then new_event else e) },
            new_event)

/-- Distance unit of the matching entry points. -/
inductive DistUnit
  | km
  | mile
deriving DecidableEq, Repr

/-- The PostGIS meter distance converted to the request unit
(`* 0.000621371` for miles, `/ 1000` for km), as in relations.py. -/
def meters_to_unit (u : DistUnit) (m : ℚ) : ℚ :=
  match u with
  | .mile => m * (621371 / 1000000000)
  | .km => m / 1000

/-- The `ST_DWithin` radius in meters
(`max_distance * 1609.34` for miles, `* 1000` for km). -/
def radius_meters (u : DistUnit) (max_distance : ℚ) : ℚ :=
  max_distance * (match u with | .mile => 160934 / 100 | .km => 1000)

/-- The scored candidate rows of `match_volunteers_to_event`, in the order the
store enumerates the volunteer table: inner-join each volunteer to its
location, keep those within the `ST_DWithin` radius of the event's location,
and attach the total score `location + skills + schedule` with the fixed
weights LOCATION_MAX=4, SKILLS_MAX=2, SCHEDULE_MAX=4.  `dist` is the external
PostGIS `ST_Distance` provider, in meters. -/
def event_candidate_rows (dist : ℚ × ℚ → ℚ × ℚ → ℚ) (db : Db)
    (found_event : Event) (max_distance : ℚ) (distance_unit : DistUnit) :
    List (Nat × ℚ) :=
  db.volunteers.filterMap (fun v =>
    match v.location with
    | none => none
    | some loc =>
      let m := dist found_event.location.coordinates loc.coordinates
      if m ≤ radius_meters distance_unit max_distance then
        some (v.id,
          distance_based_location_score (meters_to_unit distance_unit m)
            max_distance 4 +
          (skills_match_score v.skills found_event.needed_skills 2 : ℚ) +
          (schedule_overlap_score v.times_available found_event.day
            found_event.start_time found_event.end_time 4 : ℚ))
      else none)

/-- The ordering of `ORDER BY total_score DESC`: higher score first.  This is
the only sort key of the query; no column breaks ties. -/
def scoreDescOrder (a b : Nat × ℚ) : Prop := b.2 ≤ a.2

instance : DecidableRel scoreDescOrder := fun a b =>
  inferInstanceAs (Decidable (b.2 ≤ a.2))

instance : IsTotal (Nat × ℚ) scoreDescOrder :=
  ⟨fun a b => le_total b.2 a.2⟩

instance : IsTrans (Nat × ℚ) scoreDescOrder :=
  ⟨fun _ _ _ h1 h2 => le_trans h2 h1⟩

/-- The rows sorted by descending total score.  A stable sort stands in for
the SQL engine: SQL fixes nothing beyond the ordering comparator, so
equal-score rows surface in whatever order the scan enumerates them. -/
def sortByScoreDesc (rows : List (Nat × ℚ)) : List (Nat × ℚ) :=
  rows.insertionSort scoreDescOrder

/-- `match_volunteers_to_event` (relations.py): NotFound checks for admin and
event, then the radius-filtered scored volunteer list ordered by descending
total score. -/
def match_volunteers_to_event (dist : ℚ × ℚ → ℚ × ℚ → ℚ) (db : Db)
    (event_id admin_id : Nat) (max_distance : ℚ) (distance_unit : DistUnit) :
    Except ApiError (List (Nat × ℚ)) :=
  match findAdmin db admin_id with
  | none => .error (.notFound "admin")
  | some _found_admin =>
    match findEvent db event_id with
    | none => .error (.notFound "event")
    | some found_event =>
      .ok (sortByScoreDesc
        (event_candidate_rows dist db found_event max_distance distance_unit))

/-- The scored candidate rows of `match_events_to_volunteer`: events joined to
their (required) location, radius-filtered around the volunteer's location,
scored with the same components and weights. -/
def volunteer_candidate_rows (dist : ℚ × ℚ → ℚ × ℚ → ℚ) (db : Db)
    (found_volunteer : Volunteer) (vloc : Location) (max_distance : ℚ)
    (distance_unit : DistUnit) : List (Nat × ℚ) :=
  db.events.filterMap (fun ev =>
    let m := dist vloc.coordinates ev.location.coordinates
    if m ≤ radius_meters distance_unit max_distance then
      some (ev.id,
        distance_based_location_score (meters_to_unit distance_unit m)
          max_distance 4 +
        (skills_match_score ev.needed_skills found_volunteer.skills 2 : ℚ) +
        (schedule_overlap_score found_volunteer.times_available ev.day
          ev.start_time ev.end_time 4 : ℚ))
    else none)

/-- `match_events_to_volunteer` (relations.py): NotFound when the volunteer
does not exist, ValidationError when the volunteer has no location, else the
ranked event list. -/
def match_events_to_volunteer (dist : ℚ × ℚ → ℚ × ℚ → ℚ) (db : Db)
    (volunteer_id : Nat) (max_distance : ℚ) (distance_unit : DistUnit) :
    Except ApiError (List (Nat × ℚ)) :=
  match findVolunteer db volunteer_id with
  | none => .error (.notFound "volunteer")
  | some found_volunteer =>
    match found_volunteer.location with
    | none =>
      .error (.validation "Volunteer must have a location set to match events")
    | some vloc =>
      .ok (sortByScoreDesc (volunteer_candidate_rows dist db found_volunteer
        vloc max_distance distance_unit))

/-- A concrete distance provider: everything at the same point (0 meters). -/
def dist0 : ℚ × ℚ → ℚ × ℚ → ℚ := fun _ _ => 0

/-- Concrete location used by the closed witness theorems. -/
def locFixture : Location :=
  { address := "1 Main St", city := "Houston", state := "TX",
    zip_code := "77001", country := "USA", coordinates := (0, 0) }

/-- Concrete volunteer with a skill and a Thursday 05:30-07:00 slot. -/
def volunteer1 : Volunteer :=
  { id := 1, skills := ["Cooking"], times_available := [⟨4, 330, 420⟩],
    location := some locFixture }

/-- Concrete volunteer with no skills and no availability. -/
def volunteer2 : Volunteer :=
  { id := 2, skills := [], times_available := [], location := some locFixture }

/-- Concrete volunteer whose location is not set. -/
def volunteer3 : Volunteer :=
  { id := 3, skills := [], times_available := [], location := none }

/-- Concrete event fixture: Thursday (day 0) 04:30-07:30 at `locFixture`. -/
def eventFixture (id : Nat) (assigned capacity : Int) : Event :=
  { id := id, org_id := 1, name := "Fixture event", description := "fixture",
    image_url := none, day := 0, start_time := 270, end_time := 450,
    urgency := .low, assigned := assigned, capacity := capacity,
    location := locFixture, needed_skills := ["Cooking", "Cleaning"] }

/-- Store for the C1 witness: event 20 has one of two volunteers enrolled. -/
def c1Db : Db :=
  { volunteers := [volunteer1, volunteer2], events := [eventFixture 20 1 2],
    admins := [⟨5, 1⟩], event_volunteers := [(20, 2)] }

/-- Store for the capacity race: event 10 with capacity 1, assigned 0, and two
volunteers neither of whom is enrolled. -/
def raceDb : Db :=
  { volunteers := [volunteer1, volunteer2], events := [eventFixture 10 0 1],
    admins := [], event_volunteers := [] }

/-- Store for the C4 witness: volunteer 1 already enrolled in event 40. -/
def c4Db : Db :=
  { volunteers := [volunteer1], events := [eventFixture 40 1 3],
    admins := [], event_volunteers := [(40, 1)] }

/-- Store for the C5 witness: no enrollment rows at all. -/
def c5Db : Db :=
  { volunteers := [volunteer1], events := [eventFixture 50 0 3],
    admins := [], event_volunteers := [] }

/-- Store for the C1 witness refusal cases: event 30 is at full capacity. -/
def c1FullDb : Db :=
  { volunteers := [volunteer1], events := [eventFixture 30 1 1],
    admins := [], event_volunteers := [] }

/-- Store for the C1 witness refusal cases: event 21 has an enrollment row but
a zero `assigned` counter (an already-corrupt store). -/
def c1ZeroDb : Db :=
  { volunteers := [volunteer3], events := [eventFixture 21 0 3],
    admins := [], event_volunteers := [(21, 3)] }

/-- An event update that tries to reschedule the event and also renames it and
raises its capacity; used by the C10 witness. -/
def rescheduleUpdate : EventUpdate :=
  { name := some "Renamed event", capacity := some 4,
    day := some 99, start_time := some 0, end_time := some 1 }

/-- Two equal-scoring volunteers for the C3 tie: no skills, no availability,
both at the event's own location. -/
def c3VolA : Volunteer :=
  { id := 7, skills := [], times_available := [], location := some locFixture }

def c3VolB : Volunteer :=
  { id := 8, skills := [], times_available := [], location := some locFixture }

def c3Event : Event := eventFixture 70 0 5

/-- Two stores with the same committed rows, differing only in the physical
enumeration order of the volunteer table. -/
def c3DbA : Db :=
  { volunteers := [c3VolA, c3VolB], events := [c3Event],
    admins := [⟨5, 1⟩], event_volunteers := [] }

def c3DbB : Db :=
  { volunteers := [c3VolB, c3VolA], events := [c3Event],
    admins := [⟨5, 1⟩], event_volunteers := [] }

/-- Store for the C6 witness: volunteer 3 exists but has no location. -/
def c6Db : Db :=
  { volunteers := [volunteer3], events := [eventFixture 60 0 3],
    admins := [], event_volunteers := [] }

/-- Store for the C10 witness: event 60 owned by org 1, admin 5 of org 1. -/
def c10Db : Db :=
  { volunteers := [], events := [eventFixture 60 0 3],
    admins := [⟨5, 1⟩], event_volunteers := [] }

/-- The committed result of the C10 witness update (the error fallback is
never taken: the update succeeds). -/
def c10Result : Db × Event :=
  match update_org_event c10Db 60 rescheduleUpdate 5 none none with
  | .ok p => p
  | .error _ => (c10Db, eventFixture 60 0 3)

/-- An event update lowering capacity to 0; used by the C1 witness against an
event with one assigned volunteer. -/
def capacityZeroUpdate : EventUpdate := { capacity := some 0 }

/-- The filtered-row count of the skills subquery equals the intersection
cardinality when the entity's skill rows are duplicate-free (which the
composite primary key `(owner_id, skill)` guarantees). -/
theorem length_filter_contains_eq_inter_card (rows targets : List String)
    (hnd : rows.Nodup) :
    (rows.filter (fun s => targets.contains s)).length =
      (rows.toFinset ∩ targets.toFinset).card := by
  induction rows with
  | nil => simp
  | cons a t ih =>
    rcases List.nodup_cons.mp hnd with ⟨ha, ht⟩
    by_cases hmem : a ∈ targets
    · rw [List.filter_cons_of_pos (by simpa using hmem)]
      have hnotin : a ∉ t.toFinset ∩ targets.toFinset := by
        simp [List.mem_toFinset, ha]
      rw [List.toFinset_cons, Finset.insert_inter_of_mem (by simpa using hmem),
        Finset.card_insert_of_not_mem hnotin, List.length_cons, ih ht]
    · rw [List.filter_cons_of_neg (by simpa using hmem)]
      rw [List.toFinset_cons, Finset.insert_inter_of_not_mem (by simpa using hmem), ih ht]

/-- Claim C7: for every candidate skill set, target skill set, and max_weight,
`skills_match_score` equals `min (|candidate ∩ target|) max_weight`, and a
candidate with no skill rows scores 0 (no error is possible: the function is
total). -/
theorem C7_skill_score_is_capped_intersection (rows targets : List String)
    (w : Nat) (hnd : rows.Nodup) :
    skills_match_score rows targets w =
      min ((rows.toFinset ∩ targets.toFinset).card) w ∧
    skills_match_score [] targets w = 0 := by
  constructor
  · unfold skills_match_score
    rw [length_filter_contains_eq_inter_card rows targets hnd]
    dsimp only
    split_ifs with h <;> omega
  · simp [skills_match_score]

/-- Witness for C7 at a concrete input. -/
theorem C7_skill_score_is_capped_intersection_witness :
    (["Cooking", "Gardening"] : List String).Nodup ∧
    (skills_match_score ["Cooking", "Gardening"] ["Cooking", "Cleaning"] 2 =
      min (((["Cooking", "Gardening"] : List String).toFinset ∩
        (["Cooking", "Cleaning"] : List String).toFinset).card) 2 ∧
    skills_match_score [] ["Cooking", "Cleaning"] 2 = 0) :=
  ⟨by decide, C7_skill_score_is_capped_intersection _ _ 2 (by decide)⟩

/-- Claim C8: the schedule score is `max_weight` exactly when some availability
slot on the event's ISO weekday satisfies the interval-overlap test
`slot.start ≤ target_end ∧ slot.end ≥ target_start`, and the score is binary:
always 0 or `max_weight`. -/
theorem C8_schedule_score_binary_overlap (slots : List AvailSlot) (d : Day)
    (st en : TimeOfDay) (w : Nat) (hw : 0 < w) :
    (schedule_overlap_score slots d st en w = w ↔
      ∃ s ∈ slots, s.day_of_week = isodow d ∧ s.start_time ≤ en ∧ st ≤ s.end_time) ∧
    (schedule_overlap_score slots d st en w = 0 ∨
      schedule_overlap_score slots d st en w = w) := by
  unfold schedule_overlap_score
  by_cases h : slots.any (fun s =>
      s.day_of_week == isodow d && decide (s.start_time ≤ en) &&
      decide (s.end_time ≥ st)) = true
  · rw [if_pos h]
    refine ⟨⟨fun _ => ?_, fun _ => rfl⟩, Or.inr rfl⟩
    rcases List.any_eq_true.mp h with ⟨s, hs, hpred⟩
    have hp : (s.day_of_week = isodow d ∧ s.start_time ≤ en) ∧ st ≤ s.end_time := by
      simpa [Bool.and_eq_true, beq_iff_eq, decide_eq_true_eq, ge_iff_le] using hpred
    exact ⟨s, hs, hp.1.1, hp.1.2, hp.2⟩
  · rw [if_neg h]
    refine ⟨⟨fun h0 => absurd h0.symm (Nat.pos_iff_ne_zero.mp hw), fun hex => ?_⟩, Or.inl rfl⟩
    exact absurd (List.any_eq_true.mpr (by
      rcases hex with ⟨s, hs, h1, h2, h3⟩
      exact ⟨s, hs, by simp [h1, h2, h3]⟩)) h

/-- Witness for C8 at a concrete input (Thursday slot 05:30–07:00 against a
Thursday 04:30–07:30 event, weight 4). -/
theorem C8_schedule_score_binary_overlap_witness :
    0 < 4 ∧
    ((schedule_overlap_score [⟨4, 330, 420⟩] 0 270 450 4 = 4 ↔
      ∃ s ∈ [(⟨4, 330, 420⟩ : AvailSlot)],
        s.day_of_week = isodow 0 ∧ s.start_time ≤ 450 ∧ 270 ≤ s.end_time) ∧
    (schedule_overlap_score [⟨4, 330, 420⟩] 0 270 450 4 = 0 ∨
      schedule_overlap_score [⟨4, 330, 420⟩] 0 270 450 4 = 4)) :=
  ⟨by decide, C8_schedule_score_binary_overlap _ 0 270 450 4 (by decide)⟩

/-- Claim C9: with `percentage = (max_distance - distance) / max_distance`, the
distance score is 0 when `percentage ≤ 0`, `max_weight` when `percentage ≥ 1`,
and `percentage * max_weight` otherwise; consequently it always lies in
`[0, max_weight]`. -/
theorem C9_distance_score_linear_decay (d md w : ℚ) (hw : 0 ≤ w) :
    ((md - d) / md ≤ 0 → distance_based_location_score d md w = 0) ∧
    (1 ≤ (md - d) / md → distance_based_location_score d md w = w) ∧
    (0 < (md - d) / md → (md - d) / md < 1 →
      distance_based_location_score d md w = (md - d) / md * w) ∧
    0 ≤ distance_based_location_score d md w ∧
    distance_based_location_score d md w ≤ w := by
  unfold distance_based_location_score
  by_cases h1 : (md - d) / md ≤ 0
  · rw [if_pos h1]
    exact ⟨fun _ => rfl, fun hc => absurd (lt_of_lt_of_le one_pos hc) (not_lt.mpr h1),
      fun hc _ => absurd h1 (not_le.mpr hc), le_refl 0, hw⟩
  · rw [if_neg h1]
    by_cases h2 : (md - d) / md ≥ 1
    · rw [if_pos h2]
      exact ⟨fun hc => absurd hc h1, fun _ => rfl,
        fun _ hc => absurd hc (not_lt.mpr h2), hw, le_refl w⟩
    · rw [if_neg h2]
      have hp0 : 0 < (md - d) / md := lt_of_not_le h1
      have hp1 : (md - d) / md < 1 := lt_of_not_le h2
      exact ⟨fun hc => absurd hc h1, fun hc => absurd hc (not_le.mpr hp1),
        fun _ _ => rfl, mul_nonneg (le_of_lt hp0) hw,
        mul_le_of_le_one_left hw (le_of_lt hp1)⟩

/-- Witness for C9 at a concrete input (distance 5, radius 25, weight 4:
percentage 4/5, score 16/5). -/
theorem C9_distance_score_linear_decay_witness :
    (0 : ℚ) ≤ 4 ∧
    ((((25 : ℚ) - 5) / 25 ≤ 0 → distance_based_location_score 5 25 4 = 0) ∧
    (1 ≤ ((25 : ℚ) - 5) / 25 → distance_based_location_score 5 25 4 = 4) ∧
    (0 < ((25 : ℚ) - 5) / 25 → ((25 : ℚ) - 5) / 25 < 1 →
      distance_based_location_score 5 25 4 = ((25 : ℚ) - 5) / 25 * 4) ∧
    (0 : ℚ) ≤ distance_based_location_score 5 25 4 ∧
    distance_based_location_score 5 25 4 ≤ 4) :=
  ⟨by norm_num, C9_distance_score_linear_decay 5 25 4 (by norm_num)⟩

/-- A successful primary-key lookup determines the row uniquely. -/
theorem findEvent_mem_unique (db : Db) (hwf : db_wf db) {eid : Nat} {ev : Event}
    (hfe : findEvent db eid = some ev) :
    ev ∈ db.events ∧ ev.id = eid ∧ ∀ e ∈ db.events, e.id = eid → e = ev := by
  have hmem : ev ∈ db.events := List.mem_of_find?_eq_some hfe
  have hid : ev.id = eid := by
    have h := List.find?_some hfe
    simpa using h
  refine ⟨hmem, hid, fun e he hide => ?_⟩
  exact List.inj_on_of_nodup_map hwf he hmem (by rw [hide, hid])

/-- Inversion of the signup check phase: success pins the found event, the
strict capacity check, and the buffered writes. -/
theorem signup_checks_ok_inversion (db : Db) (volunteer_id event_id : Nat)
    (w : SignupWrites)
    (h : signup_volunteer_event_checks db volunteer_id event_id = .ok w) :
    ∃ ev, findEvent db event_id = some ev ∧ ev.assigned < ev.capacity ∧
      w = ⟨event_id, volunteer_id, ev.assigned + 1⟩ ∧
      (event_id, volunteer_id) ∉ db.event_volunteers ∧
      (findVolunteer db volunteer_id).isSome := by
  unfold signup_volunteer_event_checks at h
  cases hfv : findVolunteer db volunteer_id with
  | none => rw [hfv] at h; simp at h
  | some fv =>
    rw [hfv] at h
    cases hfe : findEvent db event_id with
    | none => rw [hfe] at h; simp at h
    | some ev =>
      rw [hfe] at h
      simp only at h
      split_ifs at h with h1 h2
      injection h with h3
      exact ⟨ev, rfl, lt_of_not_ge h2, h3.symm, h1, by simp⟩

/-- Overwriting one event's `assigned` with a value that respects that event's
capacity preserves the store invariant. -/
theorem setAssigned_preserves_inv (db : Db) (hwf : db_wf db) (hinv : db_inv db)
    {eid : Nat} {ev : Event} (hfe : findEvent db eid = some ev) (val : Int)
    (h0 : 0 ≤ val) (hc : val ≤ ev.capacity) :
    ∀ e2 ∈ setAssigned db.events eid val, event_inv e2 := by
  intro e2 hmem
  unfold setAssigned at hmem
  rcases List.mem_map.mp hmem with ⟨e, he, rfl⟩
  by_cases hid : e.id = eid
  · have heq : e = ev := (findEvent_mem_unique db hwf hfe).2.2 e he hid
    subst heq
    rw [if_pos hid]
    exact ⟨h0, hc⟩
  · rw [if_neg hid]
    exact hinv e he

/-- Frame equality between two event rows: all columns the capacity invariant
and the schedule depend on agree. -/
def frame_eq (a b : Event) : Prop :=
  a.assigned = b.assigned ∧ a.capacity = b.capacity ∧ a.day = b.day ∧
  a.start_time = b.start_time ∧ a.end_time = b.end_time ∧ a.id = b.id ∧
  a.org_id = b.org_id

theorem frame_eq_refl (a : Event) : frame_eq a a :=
  ⟨rfl, rfl, rfl, rfl, rfl, rfl, rfl⟩

theorem frame_eq_trans {a b c : Event} (h1 : frame_eq a b) (h2 : frame_eq b c) :
    frame_eq a c := by
  obtain ⟨x1, x2, x3, x4, x5, x6, x7⟩ := h1
  obtain ⟨y1, y2, y3, y4, y5, y6, y7⟩ := h2
  exact ⟨x1.trans y1, x2.trans y2, x3.trans y3, x4.trans y4, x5.trans y5,
    x6.trans y6, x7.trans y7⟩

theorem apply_name_frame (e : Event) (u : EventUpdate) :
    frame_eq (apply_name e u) e := by
  unfold apply_name; cases u.name <;> exact frame_eq_refl _

theorem apply_description_frame (e : Event) (u : EventUpdate) :
    frame_eq (apply_description e u) e := by
  unfold apply_description; cases u.description <;> exact frame_eq_refl _

theorem apply_needed_skills_frame (e : Event) (u : EventUpdate) :
    frame_eq (apply_needed_skills e u) e := by
  unfold apply_needed_skills; cases u.needed_skills <;> exact frame_eq_refl _

theorem apply_urgency_frame (e : Event) (u : EventUpdate) :
    frame_eq (apply_urgency e u) e := by
  unfold apply_urgency; cases u.urgency <;> exact frame_eq_refl _

theorem apply_image_frame (e : Event) (img : Option String) :
    frame_eq (apply_image e img) e := by
  unfold apply_image; cases img <;> exact frame_eq_refl _

theorem apply_location_update_ok_frame (e : Event) (u : EventUpdate)
    (ll : Option (ℚ × ℚ)) (e3 : Event)
    (h : apply_location_update e u ll = .ok e3) : frame_eq e3 e := by
  unfold apply_location_update at h
  cases hl : u.location with
  | none => rw [hl] at h; injection h with h2; rw [← h2]; exact frame_eq_refl _
  | some loc =>
    rw [hl] at h
    unfold update_location at h
    cases hll : ll with
    | none => rw [hll] at h; simp [Except.map] at h
    | some p =>
      rw [hll] at h
      simp only [Except.map] at h
      injection h with h2
      rw [← h2]
      exact frame_eq_refl _

/-- Inversion of the checked capacity step. -/
theorem apply_capacity_ok (e : Event) (u : EventUpdate) (e2 : Event)
    (h : apply_capacity e u = .ok e2) :
    e2.assigned = e.assigned ∧ e2.day = e.day ∧ e2.start_time = e.start_time ∧
    e2.end_time = e.end_time ∧ e2.id = e.id ∧ e2.org_id = e.org_id ∧
    ((u.capacity = none ∧ e2.capacity = e.capacity) ∨
      ∃ c, u.capacity = some c ∧ e2.capacity = c ∧ e.assigned ≤ c ∧ 0 ≤ c) := by
  unfold apply_capacity at h
  split at h
  next hc =>
    injection h with h2
    subst h2
    exact ⟨rfl, rfl, rfl, rfl, rfl, rfl, Or.inl ⟨hc, rfl⟩⟩
  next c hc =>
    split_ifs at h with h1 h2
    injection h with h3
    subst h3
    exact ⟨rfl, rfl, rfl, rfl, rfl, rfl, Or.inr ⟨c, hc, rfl, by omega, by omega⟩⟩

/-- Full frame inversion of a successful `update_event_helper` call. -/
theorem update_event_helper_ok_frame (e : Event) (u : EventUpdate)
    (img : Option String) (ll : Option (ℚ × ℚ)) (e2 : Event)
    (h : update_event_helper e u img ll = .ok e2) :
    e2.assigned = e.assigned ∧ e2.day = e.day ∧ e2.start_time = e.start_time ∧
    e2.end_time = e.end_time ∧ e2.id = e.id ∧ e2.org_id = e.org_id ∧
    ((u.capacity = none ∧ e2.capacity = e.capacity) ∨
      ∃ c, u.capacity = some c ∧ e2.capacity = c ∧ e.assigned ≤ c ∧ 0 ≤ c) := by
  unfold update_event_helper at h
  cases hloc : apply_location_update
      (apply_description (apply_name e u) u) u ll with
  | error err => rw [hloc] at h; simp at h
  | ok e3 =>
    rw [hloc] at h
    have hf3 : frame_eq e3 e :=
      frame_eq_trans (apply_location_update_ok_frame _ u ll e3 hloc)
        (frame_eq_trans (apply_description_frame _ u) (apply_name_frame e u))
    have hf6 : frame_eq
        (apply_image (apply_urgency (apply_needed_skills e3 u) u) img) e :=
      frame_eq_trans (apply_image_frame _ img)
        (frame_eq_trans (apply_urgency_frame _ u)
          (frame_eq_trans (apply_needed_skills_frame _ u) hf3))
    obtain ⟨g1, g2, g3, g4, g5, g6, g7⟩ := hf6
    obtain ⟨k1, k2, k3, k4, k5, k6, kcap⟩ := apply_capacity_ok _ u e2 h
    refine ⟨k1.trans g1, k2.trans g3, k3.trans g4, k4.trans g5, k5.trans g6,
      k6.trans g7, ?_⟩
    rcases kcap with ⟨hnone, hcap⟩ | ⟨c, hsome, hcap, hle, hc0⟩
    · exact Or.inl ⟨hnone, hcap.trans g2⟩
    · exact Or.inr ⟨c, hsome, hcap, by rw [← g1]; exact hle, hc0⟩

theorem event_inv_iff (e : Event) :
    event_inv e ↔ 0 ≤ e.assigned ∧ e.assigned ≤ e.capacity := Iff.rfl

/-- Claim C1: after every core operation that can change enrollment or
capacity, the invariant 0 ≤ assigned ≤ capacity holds: a successful signup
or withdraw preserves the store invariant, a signup against a full event
never succeeds, a withdraw never decrements an `assigned` that is already
`≤ 0`, a successful event update preserves the per-event invariant, and an
update whose new capacity is below the current assigned count is rejected. -/
theorem C1_capacity_invariant (db : Db) (volunteer_id event_id : Nat)
    (hwf : db_wf db) :
    (db_inv db → ∀ db2,
      signup_volunteer_event db volunteer_id event_id = .ok db2 → db_inv db2) ∧
    (∀ ev, findEvent db event_id = some ev → ev.capacity ≤ ev.assigned →
      ∀ db2, signup_volunteer_event db volunteer_id event_id ≠ .ok db2) ∧
    (db_inv db → ∀ db2,
      remove_volunteer_event db volunteer_id event_id = .ok db2 → db_inv db2) ∧
    (∀ ev, findEvent db event_id = some ev → ev.assigned ≤ 0 →
      ∀ db2, remove_volunteer_event db volunteer_id event_id ≠ .ok db2) ∧
    (∀ e u img ll e2, event_inv e → update_event_helper e u img ll = .ok e2 →
      event_inv e2) ∧
    (∀ e u img ll c, u.capacity = some c → c < e.assigned →
      ∀ e2, update_event_helper e u img ll ≠ .ok e2) := by
  refine ⟨?_, ?_, ?_, ?_, ?_, ?_⟩
  · intro hinv db2 hok
    unfold signup_volunteer_event at hok
    cases hr : signup_volunteer_event_checks db volunteer_id event_id with
    | error err => rw [hr] at hok; simp [Except.map] at hok
    | ok w =>
      rw [hr] at hok
      simp only [Except.map] at hok
      obtain ⟨ev, hfe, hlt, hw, _, _⟩ :=
        signup_checks_ok_inversion db volunteer_id event_id w hr
      subst hw
      injection hok with hok2
      subst hok2
      intro e2 hmem
      obtain ⟨h1a, h1b⟩ :=
        (event_inv_iff ev).mp (hinv ev (findEvent_mem_unique db hwf hfe).1)
      exact setAssigned_preserves_inv db hwf hinv hfe (ev.assigned + 1)
        (by omega) (by omega) e2 hmem
  · intro ev hfe hge db2 hok
    unfold signup_volunteer_event at hok
    cases hr : signup_volunteer_event_checks db volunteer_id event_id with
    | error err => rw [hr] at hok; simp [Except.map] at hok
    | ok w =>
      obtain ⟨ev2, hfe2, hlt, _, _, _⟩ :=
        signup_checks_ok_inversion db volunteer_id event_id w hr
      rw [hfe] at hfe2
      injection hfe2 with heq
      subst heq
      omega
  · intro hinv db2 hok
    unfold remove_volunteer_event at hok
    split_ifs at hok with hpair
    cases hfe : findEvent db event_id with
    | none => rw [hfe] at hok; simp at hok
    | some ev =>
      rw [hfe] at hok
      simp only at hok
      split_ifs at hok with hz
      injection hok with hok2
      subst hok2
      intro e2 hmem
      obtain ⟨h1a, h1b⟩ :=
        (event_inv_iff ev).mp (hinv ev (findEvent_mem_unique db hwf hfe).1)
      exact setAssigned_preserves_inv db hwf hinv hfe _ (by omega) (by omega) e2 hmem
  · intro ev hfe hz db2 hok
    unfold remove_volunteer_event at hok
    split_ifs at hok with hpair
    rw [hfe] at hok
    simp only at hok
    split_ifs at hok
  · intro e u img ll e2 hinvE hok
    obtain ⟨f1, _, _, _, _, _, fcap⟩ := update_event_helper_ok_frame e u img ll e2 hok
    obtain ⟨ha, hb⟩ := (event_inv_iff e).mp hinvE
    rw [event_inv_iff]
    constructor
    · rw [f1]; exact ha
    · rcases fcap with ⟨_, hc2⟩ | ⟨c, _, hc2, hle, hc0⟩
      · rw [f1, hc2]; exact hb
      · rw [f1, hc2]; exact hle
  · intro e u img ll c hc hlt e2 hok
    unfold update_event_helper at hok
    cases hloc : apply_location_update
        (apply_description (apply_name e u) u) u ll with
    | error err => rw [hloc] at hok; simp at hok
    | ok e3 =>
      rw [hloc] at hok
      simp only at hok
      obtain ⟨k1, _, _, _, _, _, kcap⟩ := apply_capacity_ok _ u e2 hok
      rcases kcap with ⟨hnone, _⟩ | ⟨c2, hsome, _, hle, _⟩
      · rw [hc] at hnone; simp at hnone
      · rw [hc] at hsome
        injection hsome with hceq
        subst hceq
        have hf : frame_eq
            (apply_image (apply_urgency (apply_needed_skills e3 u) u) img) e :=
          frame_eq_trans (apply_image_frame _ img)
            (frame_eq_trans (apply_urgency_frame _ u)
              (frame_eq_trans (apply_needed_skills_frame _ u)
                (frame_eq_trans (apply_location_update_ok_frame _ u ll e3 hloc)
                  (frame_eq_trans (apply_description_frame _ u)
                    (apply_name_frame e u)))))
        obtain ⟨g1, _, _, _, _, _, _⟩ := hf
        omega

/-- Witness for C1: concrete stores exercising the preserved-invariant cases
(successful signup, withdraw, event update) and the refusal cases (full
event, zero counter, capacity below assigned). -/
theorem C1_capacity_invariant_witness :
    db_wf c1Db ∧ db_inv c1Db ∧
    db_inv (db_after c1Db (signup_volunteer_event c1Db 1 20)) ∧
    db_inv (db_after c1Db (remove_volunteer_event c1Db 2 20)) ∧
    event_inv (event_after (eventFixture 20 1 2)
      (update_event_helper (eventFixture 20 1 2) rescheduleUpdate none none)) ∧
    signup_volunteer_event c1FullDb 1 30 ≠ .ok c1FullDb ∧
    remove_volunteer_event c1ZeroDb 3 21 ≠ .ok c1ZeroDb ∧
    update_event_helper (eventFixture 20 1 2) capacityZeroUpdate none none ≠
      .ok (eventFixture 20 1 2) := by
  refine ⟨by decide, by decide, ?_, ?_, ?_, ?_, ?_, ?_⟩
  · exact (C1_capacity_invariant c1Db 1 20 (by decide)).1 (by decide) _ rfl
  · exact (C1_capacity_invariant c1Db 2 20 (by decide)).2.2.1 (by decide) _ rfl
  · exact (C1_capacity_invariant c1Db 1 20 (by decide)).2.2.2.2.1
      (eventFixture 20 1 2) rescheduleUpdate none none _ (by decide) rfl
  · exact (C1_capacity_invariant c1FullDb 1 30 (by decide)).2.1
      (eventFixture 30 1 1) rfl (by decide) c1FullDb
  · exact (C1_capacity_invariant c1ZeroDb 3 21 (by decide)).2.2.2.1
      (eventFixture 21 0 3) rfl (by decide) c1ZeroDb
  · exact (C1_capacity_invariant c1Db 1 20 (by decide)).2.2.2.2.2
      (eventFixture 20 1 2) capacityZeroUpdate none none 0 rfl (by decide)
      (eventFixture 20 1 2)

/-- Claim C4: a second signup for an already-enrolled (volunteer, event) pair
fails with Conflict, and the failed call leaves the committed state — in
particular the event's `assigned` counter — unchanged. -/
theorem C4_duplicate_signup_is_conflict (db : Db) (volunteer_id event_id : Nat)
    (hv : (findVolunteer db volunteer_id).isSome)
    (he : (findEvent db event_id).isSome)
    (hp : (event_id, volunteer_id) ∈ db.event_volunteers) :
    signup_volunteer_event db volunteer_id event_id =
      .error (.conflict "Volunteer already signed up to event") ∧
    db_after db (signup_volunteer_event db volunteer_id event_id) = db := by
  have hchk : signup_volunteer_event_checks db volunteer_id event_id =
      .error (.conflict "Volunteer already signed up to event") := by
    unfold signup_volunteer_event_checks
    cases hfv : findVolunteer db volunteer_id with
    | none => rw [hfv] at hv; simp at hv
    | some fv =>
      cases hfe : findEvent db event_id with
      | none => rw [hfe] at he; simp at he
      | some ev => simp [hp]
  constructor
  · unfold signup_volunteer_event
    rw [hchk]
    rfl
  · unfold db_after signup_volunteer_event
    rw [hchk]
    rfl

/-- Witness for C4: volunteer 1 is already enrolled in event 40 of `c4Db`. -/
theorem C4_duplicate_signup_is_conflict_witness :
    ((findVolunteer c4Db 1).isSome ∧ (findEvent c4Db 40).isSome ∧
      (40, 1) ∈ c4Db.event_volunteers) ∧
    (signup_volunteer_event c4Db 1 40 =
      .error (.conflict "Volunteer already signed up to event") ∧
    db_after c4Db (signup_volunteer_event c4Db 1 40) = c4Db) :=
  ⟨⟨by decide, by decide, by decide⟩,
    C4_duplicate_signup_is_conflict c4Db 1 40 (by decide) (by decide) (by decide)⟩

/-- Claim C5: withdraw for a pair with no enrollment row fails with NotFound
and mutates nothing. -/
theorem C5_withdraw_nonmember_is_notfound (db : Db) (volunteer_id event_id : Nat)
    (hp : (event_id, volunteer_id) ∉ db.event_volunteers) :
    remove_volunteer_event db volunteer_id event_id =
      .error (.notFound "event_volunteer") ∧
    db_after db (remove_volunteer_event db volunteer_id event_id) = db := by
  have h : remove_volunteer_event db volunteer_id event_id =
      .error (.notFound "event_volunteer") := by
    unfold remove_volunteer_event
    rw [if_neg hp]
  exact ⟨h, by simp [db_after, h]⟩

/-- Witness for C5: no enrollment rows exist in `c5Db`. -/
theorem C5_withdraw_nonmember_is_notfound_witness :
    ((50, 1) ∉ c5Db.event_volunteers) ∧
    (remove_volunteer_event c5Db 1 50 = .error (.notFound "event_volunteer") ∧
      db_after c5Db (remove_volunteer_event c5Db 1 50) = c5Db) :=
  ⟨by decide, C5_withdraw_nonmember_is_notfound c5Db 1 50 (by decide)⟩

/-- Claim C2 (refuted by the code): the capacity check and the increment are
NOT one atomic unit.  Two signup sessions that both open on the committed
state of `raceDb` (event 10, capacity 1, assigned 0) both pass the check
phase; committing both write sets yields two enrollment rows for a
capacity-1 event (the counter itself ends at 1 because each session wrote
the literal value it computed from its stale read).  A serialized second
signup — the behavior the claim requires — would instead fail with the
capacity ValidationError, as the last conjunct shows. -/
theorem C2_signup_check_then_act_race :
    signup_volunteer_event_checks raceDb 1 10 = .ok ⟨10, 1, 1⟩ ∧
    signup_volunteer_event_checks raceDb 2 10 = .ok ⟨10, 2, 1⟩ ∧
    enrolled_count
      (applySignupWrites (applySignupWrites raceDb ⟨10, 1, 1⟩) ⟨10, 2, 1⟩) 10 = 2 ∧
    (findEvent
      (applySignupWrites (applySignupWrites raceDb ⟨10, 1, 1⟩) ⟨10, 2, 1⟩) 10).map
      Event.assigned = some 1 ∧
    (findEvent raceDb 10).map Event.capacity = some 1 ∧
    signup_volunteer_event (applySignupWrites raceDb ⟨10, 1, 1⟩) 2 10 =
      .error (.validation "Invalid join request") :=
  ⟨rfl, rfl, rfl, rfl, rfl, rfl⟩

/-- Concrete evaluation: the candidate rows of `c3DbA` in enumeration order
(volunteer 7 first).  Both candidates score `4 + 0 + 0 = 4`. -/
theorem c3_candidate_rows_A :
    event_candidate_rows dist0 c3DbA c3Event 25 .mile = [(7, 4), (8, 4)] := by
  unfold event_candidate_rows
  norm_num [c3DbA, c3VolA, c3VolB, c3Event, eventFixture, locFixture, dist0,
    radius_meters, meters_to_unit, distance_based_location_score,
    skills_match_score, schedule_overlap_score, List.filterMap]

/-- Concrete evaluation: the candidate rows of `c3DbB` in enumeration order
(volunteer 8 first). -/
theorem c3_candidate_rows_B :
    event_candidate_rows dist0 c3DbB c3Event 25 .mile = [(8, 4), (7, 4)] := by
  unfold event_candidate_rows
  norm_num [c3DbB, c3VolA, c3VolB, c3Event, eventFixture, locFixture, dist0,
    radius_meters, meters_to_unit, distance_based_location_score,
    skills_match_score, schedule_overlap_score, List.filterMap]

/-- Claim C3 (refuted): the ordering of `match_volunteers_to_event` carries no
deterministic secondary tie-break key.  `c3DbA` and `c3DbB` hold exactly the
same committed rows — their volunteer tables are permutations of each other,
everything else is equal — yet the two calls return the two equal-score
candidates (ids 7 and 8, total score 4 each) in different orders: the query
orders by total score alone, so tie order is inherited from the row
enumeration, which SQL does not fix across calls. -/
theorem C3_no_secondary_tiebreak_counterexample :
    c3DbA.volunteers.Perm c3DbB.volunteers ∧
    c3DbA.events = c3DbB.events ∧ c3DbA.admins = c3DbB.admins ∧
    c3DbA.event_volunteers = c3DbB.event_volunteers ∧
    match_volunteers_to_event dist0 c3DbA 70 5 25 .mile =
      .ok [(7, 4), (8, 4)] ∧
    match_volunteers_to_event dist0 c3DbB 70 5 25 .mile =
      .ok [(8, 4), (7, 4)] ∧
    match_volunteers_to_event dist0 c3DbA 70 5 25 .mile ≠
      match_volunteers_to_event dist0 c3DbB 70 5 25 .mile := by
  have h0A : match_volunteers_to_event dist0 c3DbA 70 5 25 .mile =
      .ok (sortByScoreDesc (event_candidate_rows dist0 c3DbA c3Event 25 .mile)) :=
    rfl
  have h0B : match_volunteers_to_event dist0 c3DbB 70 5 25 .mile =
      .ok (sortByScoreDesc (event_candidate_rows dist0 c3DbB c3Event 25 .mile)) :=
    rfl
  have hA : match_volunteers_to_event dist0 c3DbA 70 5 25 .mile =
      .ok [(7, 4), (8, 4)] := by
    rw [h0A, c3_candidate_rows_A]; rfl
  have hB : match_volunteers_to_event dist0 c3DbB 70 5 25 .mile =
      .ok [(8, 4), (7, 4)] := by
    rw [h0B, c3_candidate_rows_B]; rfl
  refine ⟨by decide, rfl, rfl, rfl, hA, hB, ?_⟩
  rw [hA, hB]
  intro hc
  injection hc with hc2
  injection hc2 with h1 h2
  injection h1 with h3 h4
  exact absurd h3 (by decide)

/-- Claim C3 amended: the result of `match_volunteers_to_event` is exactly the
stable descending-score sort of the candidate rows in store-enumeration
order: it is sorted by descending total score and is a permutation of the
radius-filtered scored candidates, but nothing beyond the enumeration order
of the underlying rows determines the relative order of equal scores. -/
theorem C3_order_desc_of_enumeration (dist : ℚ × ℚ → ℚ × ℚ → ℚ) (db : Db)
    (event_id admin_id : Nat) (max_distance : ℚ) (u : DistUnit)
    (rows : List (Nat × ℚ))
    (h : match_volunteers_to_event dist db event_id admin_id max_distance u =
      .ok rows) :
    ∃ ev, findEvent db event_id = some ev ∧
      rows = sortByScoreDesc (event_candidate_rows dist db ev max_distance u) ∧
      rows.Pairwise scoreDescOrder ∧
      rows.Perm (event_candidate_rows dist db ev max_distance u) := by
  unfold match_volunteers_to_event at h
  cases ha : findAdmin db admin_id with
  | none => rw [ha] at h; simp at h
  | some ad =>
    rw [ha] at h
    cases hfe : findEvent db event_id with
    | none => rw [hfe] at h; simp at h
    | some ev =>
      rw [hfe] at h
      simp only at h
      injection h with h2
      subst h2
      refine ⟨ev, rfl, rfl, ?_, ?_⟩
      · exact List.sorted_insertionSort scoreDescOrder _
      · exact List.perm_insertionSort scoreDescOrder _

/-- Witness for the amended C3 at a concrete store. -/
theorem C3_order_desc_of_enumeration_witness :
    ([((7 : Nat), (4 : ℚ)), (8, 4)]).Pairwise scoreDescOrder ∧
    ([((7 : Nat), (4 : ℚ)), (8, 4)]).Perm
      (event_candidate_rows dist0 c3DbA c3Event 25 .mile) := by
  obtain ⟨ev, hev, _, hpw, hperm⟩ :=
    C3_order_desc_of_enumeration dist0 c3DbA 70 5 25 .mile
      [(7, 4), (8, 4)] (by
        have h0 : match_volunteers_to_event dist0 c3DbA 70 5 25 .mile =
            .ok (sortByScoreDesc
              (event_candidate_rows dist0 c3DbA c3Event 25 .mile)) := rfl
        rw [h0, c3_candidate_rows_A]; rfl)
  have hev2 : findEvent c3DbA 70 = some c3Event := rfl
  rw [hev2] at hev
  injection hev with hev3
  subst hev3
  exact ⟨hpw, hperm⟩

/-- Claim C6: `match_events_to_volunteer` for an existing volunteer whose
location is not set fails with a ValidationFailure (not a zero score, not an
empty result). -/
theorem C6_match_from_volunteer_without_location (dist : ℚ × ℚ → ℚ × ℚ → ℚ)
    (db : Db) (volunteer_id : Nat) (max_distance : ℚ) (u : DistUnit)
    (v : Volunteer) (hfv : findVolunteer db volunteer_id = some v)
    (hloc : v.location = none) :
    match_events_to_volunteer dist db volunteer_id max_distance u =
      .error (.validation "Volunteer must have a location set to match events") := by
  unfold match_events_to_volunteer
  rw [hfv]
  simp [hloc]

/-- Witness for C6: volunteer 3 of `c6Db` has no location. -/
theorem C6_match_from_volunteer_without_location_witness :
    (findVolunteer c6Db 3 = some volunteer3 ∧ volunteer3.location = none) ∧
    match_events_to_volunteer dist0 c6Db 3 25 .mile =
      .error (.validation "Volunteer must have a location set to match events") :=
  ⟨⟨rfl, rfl⟩,
    C6_match_from_volunteer_without_location dist0 c6Db 3 25 .mile
      volunteer3 rfl rfl⟩

/-- Claim C10: neither `update_event_helper` nor `update_org_event` ever
changes an event's day, start_time or end_time, even when the EventUpdate
supplies new values for those fields. -/
theorem C10_update_never_changes_schedule :
    (∀ e u img ll e2, update_event_helper e u img ll = .ok e2 →
      e2.day = e.day ∧ e2.start_time = e.start_time ∧
      e2.end_time = e.end_time) ∧
    (∀ db event_id u admin_id img ll db2 ev2 e0,
      findEvent db event_id = some e0 →
      update_org_event db event_id u admin_id img ll = .ok (db2, ev2) →
      ev2.day = e0.day ∧ ev2.start_time = e0.start_time ∧
      ev2.end_time = e0.end_time) := by
  constructor
  · intro e u img ll e2 hok
    obtain ⟨_, d1, d2, d3, _, _, _⟩ :=
      update_event_helper_ok_frame e u img ll e2 hok
    exact ⟨d1, d2, d3⟩
  · intro db event_id u admin_id img ll db2 ev2 e0 hfe hok
    unfold update_org_event at hok
    rw [hfe] at hok
    simp only at hok
    cases hfa : findAdmin db admin_id with
    | none => rw [hfa] at hok; simp at hok
    | some ad =>
      rw [hfa] at hok
      simp only at hok
      split_ifs at hok with horg
      cases hh : update_event_helper e0 u img ll with
      | error err => rw [hh] at hok; cases err <;> simp at hok
      | ok newe =>
        rw [hh] at hok
        simp only at hok
        injection hok with hok2
        obtain ⟨_, d1, d2, d3, _, _, _⟩ :=
          update_event_helper_ok_frame e0 u img ll newe hh
        have hsnd : newe = ev2 := congrArg Prod.snd hok2
        subst hsnd
        exact ⟨d1, d2, d3⟩

/-- Witness for C10: the update `rescheduleUpdate` supplies a new day, start
and end time (and a new name and capacity); both the helper and
`update_org_event` apply the rest but leave the schedule unchanged. -/
theorem C10_update_never_changes_schedule_witness :
    ((event_after (eventFixture 60 0 3)
      (update_event_helper (eventFixture 60 0 3) rescheduleUpdate none none)).day
        = (eventFixture 60 0 3).day ∧
    (event_after (eventFixture 60 0 3)
      (update_event_helper (eventFixture 60 0 3) rescheduleUpdate none none)).start_time
        = (eventFixture 60 0 3).start_time ∧
    (event_after (eventFixture 60 0 3)
      (update_event_helper (eventFixture 60 0 3) rescheduleUpdate none none)).end_time
        = (eventFixture 60 0 3).end_time) ∧
    ((c10Result.2).day = (eventFixture 60 0 3).day ∧
    (c10Result.2).start_time = (eventFixture 60 0 3).start_time ∧
    (c10Result.2).end_time = (eventFixture 60 0 3).end_time) := by
  constructor
  · exact C10_update_never_changes_schedule.1 (eventFixture 60 0 3)
      rescheduleUpdate none none _ rfl
  · exact C10_update_never_changes_schedule.2 c10Db 60 rescheduleUpdate 5
      none none c10Result.1 c10Result.2 (eventFixture 60 0 3) rfl rfl

end VolunteerBackend
